import Mathlib

/-!
Shallow embedding of the eshopcure storefront business logic (order/booking
status machines, order CRUD guards, cart reducer, pricing composition,
derived-transaction ledger, analytics revenue metrics, reCAPTCHA guard,
and batched item fetch), together with theorems settling the spec claims.

Timestamps are modelled as integers (milliseconds), monetary amounts as
rationals; Firestore stores are modelled as functions from document id to
an optional document, and thrown exceptions as explicit error values.
-/

namespace EshopCure

/-- Error kinds thrown by the data-access helpers (lib/utils/errors). -/
inductive DataError
  | notFound
  | validation
  deriving DecidableEq, Repr

/-! ## Status transition tables (src/unnamed/part_006, lib/utils/validation) -/

/-- Transition table of isValidOrderStatusTransition: the validTransitions
record literal, as an association list. -/
def orderValidTransitions : List (String × List String) :=
  [("pending", ["paid", "canceled"]),
   ("paid", ["processing", "canceled", "refunded"]),
   ("processing", ["shipped", "canceled"]),
   ("shipped", ["completed", "canceled"]),
   ("completed", []),
   ("canceled", []),
   ("refunded", [])]

/-- Validate order status transition: looks up the current status in the
table and checks membership of the new status; statuses outside the table
yield false (the undefined-lookup branch of the source). -/
def isValidOrderStatusTransition (currentStatus newStatus : String) : Bool :=
  match orderValidTransitions.lookup currentStatus with
  | some allowed => allowed.contains newStatus
  | none => false

/-- Transition table of isValidBookingStatusTransition. -/
def bookingValidTransitions : List (String × List String) :=
  [("pending", ["paid", "canceled"]),
   ("paid", ["confirmed", "canceled", "refunded"]),
   ("confirmed", ["completed", "canceled", "no_show"]),
   ("completed", []),
   ("canceled", []),
   ("no_show", []),
   ("refunded", [])]

/-- Validate booking status transition, analogous to the order version. -/
def isValidBookingStatusTransition (currentStatus newStatus : String) : Bool :=
  match bookingValidTransitions.lookup currentStatus with
  | some allowed => allowed.contains newStatus
  | none => false

/-! ## Order / Booking data model (types/order, types/booking, as used by src) -/

/-- Enumeration OrderStatus from types/order. -/
inductive OrderStatus
  | pending
  | paid
  | processing
  | shipped
  | completed
  | canceled
  | refunded
  deriving DecidableEq, Repr

/-- String representation of an order status, as stored in Firestore. -/
def OrderStatus.toStr : OrderStatus → String
  | .pending => "pending"
  | .paid => "paid"
  | .processing => "processing"
  | .shipped => "shipped"
  | .completed => "completed"
  | .canceled => "canceled"
  | .refunded => "refunded"

/-- Enumeration BookingStatus from types/booking. -/
inductive BookingStatus
  | pending
  | paid
  | confirmed
  | completed
  | canceled
  | no_show
  | refunded
  deriving DecidableEq, Repr

/-- Payment record attached to an order or booking once a charge succeeds. -/
structure Payment where
  amount : ℚ
  currency : String
  paymentId : String
  paidAt : Option Int
  deriving DecidableEq, Repr

/-- Pricing block of an order or booking document (fields used by the
embedded code paths). -/
structure Pricing where
  total : ℚ
  currency : String
  deriving DecidableEq, Repr

/-- Order document (fields used by the embedded code paths). -/
structure Order where
  id : String
  orderNumber : String
  status : OrderStatus
  customerEmail : String
  customerName : String
  items : List String
  pricing : Pricing
  payment : Option Payment
  refundedAt : Option Int
  createdAt : Int
  updatedAt : Int
  canceledAt : Option Int
  canceledReason : Option String
  deriving DecidableEq, Repr

/-- Booking document (fields used by the embedded code paths). -/
structure Booking where
  id : String
  bookingNumber : String
  serviceName : String
  status : BookingStatus
  customerEmail : String
  customerName : String
  pricing : Pricing
  payment : Option Payment
  refundedAt : Option Int
  createdAt : Int
  deriving DecidableEq, Repr

/-! ## Order CRUD guards (src/lib/orders/index.ts) -/

/-- The orders collection, modelled as a partial map from document id to
order document. -/
def OrderStore := String → Option Order

/-- Partial order update payload (the Partial Order argument of updateOrder;
absent fields are none). -/
structure OrderUpdates where
  status : Option OrderStatus := none
  canceledAt : Option Int := none
  canceledReason : Option String := none
  deriving Repr

/-- Merge an update payload into an order document and stamp updatedAt,
mirroring the updateDoc spread in updateOrder. -/
def applyOrderUpdates (o : Order) (u : OrderUpdates) (now : Int) : Order :=
  { o with
    status := u.status.getD o.status
    canceledAt := if u.canceledAt.isSome then u.canceledAt else o.canceledAt
    canceledReason := if u.canceledReason.isSome then u.canceledReason else o.canceledReason
    updatedAt := now }

/-- Update order: throws NotFoundError when the document is missing, throws
ValidationError when a status change violates the order transition table,
otherwise writes the provided fields plus a server timestamp. The second
component is the store after the call; the error branches are reached before
the write, so they leave the store untouched. -/
def updateOrder (store : OrderStore) (orderId : String) (updates : OrderUpdates)
    (now : Int) : Except DataError Unit × OrderStore :=
  match store orderId with
  | none => (.error .notFound, store)
  | some currentOrder =>
    let invalidTransition : Bool :=
      match updates.status with
      | some s =>
        decide (s ≠ currentOrder.status) &&
          ! isValidOrderStatusTransition currentOrder.status.toStr s.toStr
      | none => false
    if invalidTransition then
      (.error .validation, store)
    else
      (.ok (), fun k =>
        if k = orderId then some (applyOrderUpdates currentOrder updates now)
        else store k)

/-- Cancel order: rejects completed and already-canceled orders, then
delegates to updateOrder with a canceled status, cancellation timestamp and
the optional reason. -/
def cancelOrder (store : OrderStore) (orderId : String) (reason : Option String)
    (now : Int) : Except DataError Unit × OrderStore :=
  match store orderId with
  | none => (.error .notFound, store)
  | some order =>
    if order.status = OrderStatus.completed then
      (.error .validation, store)
    else if order.status = OrderStatus.canceled then
      (.error .validation, store)
    else
      updateOrder store orderId
        { status := some OrderStatus.canceled
          canceledAt := some now
          canceledReason := reason } now

/-! ## Pricing helpers

The modules lib/utils/pricing and lib/promotions/utils are imported by the
components under src but their sources are not present under src; they are
modelled from the spec (price = base − promotion + fee, transaction fees at
3% of the amount by default, per the analytics page comment). -/

/-- Modelled from the spec: the default transaction fee rate, in percent
(the analytics page comment states fees are 3% of gross revenue by
default). -/
def DEFAULT_TRANSACTION_FEE_RATE : ℚ := 3

/-- Modelled from the spec: the transaction fee cost charged on an amount at
a percentage rate. -/
def calculateTransactionFeeCost (amount rate : ℚ) : ℚ :=
  amount * rate / 100

/-- Modelled from the spec: effective price of a base price, adding the
transaction fee (at the item's rate, defaulting to the global rate) only
when includeTransactionFee is enabled. -/
def getEffectivePrice (basePrice : ℚ) (includeTransactionFee : Bool)
    (transactionFeeRate : Option ℚ) : ℚ :=
  if includeTransactionFee then
    basePrice +
      calculateTransactionFeeCost basePrice
        (transactionFeeRate.getD DEFAULT_TRANSACTION_FEE_RATE)
  else basePrice

/-- Modelled from the spec: a promotion, reduced to the discount it takes
off the base price. -/
structure Promotion where
  discount : ℚ
  deriving DecidableEq, Repr

/-- Modelled from the spec: the promotion-discounted base price
(price = base − promotion). -/
def calculatePromotionPrice (basePrice : ℚ) (promotion : Promotion) : ℚ :=
  basePrice - promotion.discount

/-- Modelled from the spec: final price from the base price and an optional
promotion price; the fee is applied on top of the promotion price when one
is present, and only when includeTransactionFee is enabled. -/
def getFinalPrice (basePrice : ℚ) (promotionPrice : Option ℚ)
    (includeTransactionFee : Bool) (transactionFeeRate : Option ℚ) : ℚ :=
  match promotionPrice with
  | some p =>
    if includeTransactionFee then
      p + calculateTransactionFeeCost p
            (transactionFeeRate.getD DEFAULT_TRANSACTION_FEE_RATE)
    else p
  | none => getEffectivePrice basePrice includeTransactionFee transactionFeeRate

/-! ## Item documents and the product card (components/products/ProductCard.tsx) -/

/-- Pricing block of an item document (fields used by the embedded code). -/
structure ItemPricing where
  basePrice : ℚ
  includeTransactionFee : Bool
  transactionFeeRate : Option ℚ
  compareAtPrice : Option ℚ := none
  deriving DecidableEq, Repr

/-- Item document (fields used by the embedded code). -/
structure Item where
  id : String
  pricing : ItemPricing
  deriving DecidableEq, Repr

/-- Displayed price of a product card: the promotion price is computed from
the base price first, then getFinalPrice applies the transaction fee
(ProductCard steps 1 and 2). -/
def productCardDisplayPrice (pricing : ItemPricing)
    (promotion : Option Promotion) : ℚ :=
  let promotionPrice := promotion.map (calculatePromotionPrice pricing.basePrice)
  getFinalPrice pricing.basePrice promotionPrice
    pricing.includeTransactionFee pricing.transactionFeeRate

/-- Strikethrough comparison price of a product card: the effective price of
the undiscounted base price. -/
def productCardEffectivePrice (pricing : ItemPricing) : ℚ :=
  getEffectivePrice pricing.basePrice
    pricing.includeTransactionFee pricing.transactionFeeRate

/-! ## Cart reducer (src/unnamed/part_001, CartContext) -/

/-- One line of the in-memory cart. -/
structure CartItem where
  product : Item
  quantity : Int
  selectedVariants : Option (List (String × String)) := none
  deriving DecidableEq, Repr

/-- Add an item to the cart: the first line whose product id matches gets its
quantity increased; otherwise a new line is appended at the end. -/
def addItem : List CartItem → Item → Int →
    Option (List (String × String)) → List CartItem
  | [], product, quantity, variants =>
    [{ product := product, quantity := quantity, selectedVariants := variants }]
  | item :: rest, product, quantity, variants =>
    if item.product.id = product.id then
      { item with quantity := item.quantity + quantity } :: rest
    else
      item :: addItem rest product quantity variants

/-- Remove every cart line whose product id matches. -/
def removeItem (prevItems : List CartItem) (productId : String) : List CartItem :=
  prevItems.filter fun item => item.product.id ≠ productId

/-- Update the quantity of the matching line; a quantity of zero or less
removes the line instead. -/
def updateQuantity (prevItems : List CartItem) (productId : String)
    (quantity : Int) : List CartItem :=
  if quantity ≤ 0 then
    removeItem prevItems productId
  else
    prevItems.map fun item =>
      if item.product.id = productId then { item with quantity := quantity } else item

/-- Empty the cart. -/
def clearCart : List CartItem := []

/-- itemCount: the running sum of line quantities. -/
def cartItemCount (items : List CartItem) : Int :=
  items.foldl (fun sum item => sum + item.quantity) 0

/-- totalAmount: the running sum of effective price times quantity over the
cart lines. -/
def cartTotalAmount (items : List CartItem) : ℚ :=
  items.foldl
    (fun sum item =>
      sum + getEffectivePrice item.product.pricing.basePrice
              item.product.pricing.includeTransactionFee
              item.product.pricing.transactionFeeRate * item.quantity)
    0

/-- Product ids of the cart lines, in order. -/
def cartIds (items : List CartItem) : List String :=
  items.map fun item => item.product.id

/-! ## Cart page pricing breakdown (app/(customer)/(orders)/cart/page.tsx)

The helpers findItemPromotion and getItemEffectivePrice come from
lib/promotions/cartUtils, which is not present under src; the page embedding
takes them as parameters. -/

/-- Payment section of the settings document. -/
structure PaymentSettings where
  taxRate : Option ℚ
  deriving DecidableEq, Repr

/-- Settings document (fields used by the cart page). -/
structure Settings where
  payment : Option PaymentSettings
  deriving DecidableEq, Repr

/-- Tax rate read by the cart page: the optional chain through the settings
document to payment.taxRate, with a default of 0 when any link is unset. -/
def cartTaxRate (settings : Option Settings) : ℚ :=
  (((settings.bind Settings.payment).bind PaymentSettings.taxRate).getD 0)

/-- Subtotal of the cart page: the running sum of the promotion-adjusted
effective price times quantity over the cart lines. -/
def cartSubtotal (findItemPromotion : Item → List Promotion → Option Promotion)
    (getItemEffectivePrice : Item → Option Promotion → ℚ)
    (items : List CartItem) (promotions : List Promotion) : ℚ :=
  items.foldl
    (fun sum item =>
      sum + getItemEffectivePrice item.product
              (findItemPromotion item.product promotions) * item.quantity)
    0

/-- Delivery cost shown on the cart page (calculated at checkout, 0 here). -/
def cartDelivery : ℚ := 0

/-- Tax shown on the cart page: subtotal times the percentage tax rate
converted to a decimal. -/
def cartTax (subtotal taxRate : ℚ) : ℚ :=
  subtotal * (taxRate / 100)

/-- Estimated total shown on the cart page: subtotal plus tax, delivery to
be added at checkout. -/
def cartEstimatedTotal (subtotal tax : ℚ) : ℚ :=
  subtotal + tax

/-- Concrete order used to exercise updateOrder: a pending order. -/
def pendingOrderEx : Order :=
  { id := "o1", orderNumber := "ORD-1", status := .pending,
    customerEmail := "a@b.c", customerName := "A",
    items := ["i1"], pricing := { total := 10, currency := "MWK" },
    payment := none, refundedAt := none, createdAt := 0, updatedAt := 0,
    canceledAt := none, canceledReason := none }

/-- Singleton store holding the pending example order. -/
def pendingStoreEx : OrderStore :=
  fun k => if k = "o1" then some pendingOrderEx else none

/-- Concrete order used to exercise cancelOrder: a refunded order. -/
def refundedOrderEx : Order :=
  { id := "o2", orderNumber := "ORD-2", status := .refunded,
    customerEmail := "a@b.c", customerName := "A",
    items := ["i1"], pricing := { total := 10, currency := "MWK" },
    payment := none, refundedAt := some 3, createdAt := 0, updatedAt := 0,
    canceledAt := none, canceledReason := none }

/-- Singleton store holding the refunded example order. -/
def refundedStoreEx : OrderStore :=
  fun k => if k = "o2" then some refundedOrderEx else none

/-- Example product a used to exercise the cart reducer. -/
def productAEx : Item :=
  { id := "a",
    pricing :=
      { basePrice := 5, includeTransactionFee := false, transactionFeeRate := none } }

/-- Example product b used to exercise the cart reducer. -/
def productBEx : Item :=
  { id := "b",
    pricing :=
      { basePrice := 7, includeTransactionFee := false, transactionFeeRate := none } }

/-- Example two-line cart with distinct product ids. -/
def cartEx : List CartItem :=
  [{ product := productAEx, quantity := 1 },
   { product := productBEx, quantity := 2 }]

/-! ## reCAPTCHA verification (src/lib/security/recaptcha.ts) -/

/-- Outcome of the request to the siteverify endpoint: a parsed response
whose success field either is or is not the boolean true, or a thrown
fetch/parse error. -/
inductive RecaptchaNet
  | responded (success : Bool)
  | errored
  deriving DecidableEq, Repr

/-- Verify a reCAPTCHA token server-side: the configuration guard is falsy,
so both an unset and an empty-string secret key skip the check and return
true; with a nonempty key an empty token fails, a response passes exactly
when its success field is true, and a thrown error is caught and yields
false. -/
def verifyRecaptcha (secretKey : Option String) (net : RecaptchaNet)
    (token : String) : Bool :=
  match secretKey with
  | none => true
  | some key =>
    if key = "" then true
    else if token = "" then false
    else
      match net with
      | .responded success => success
      | .errored => false

/-! ## Batched item fetch (src/lib/items/index.ts, getItemsByIds) -/

/-- Result of fetching one item document: the document exists, does not
exist, or the fetch throws. -/
inductive FetchResult
  | found (item : Item)
  | missing
  | failure
  deriving DecidableEq, Repr

/-- Whether a fetch result carries a document. -/
def FetchResult.isFound : FetchResult → Bool
  | .found _ => true
  | _ => false

/-- Get items by ids: a null or empty id list returns the empty list; the
ids are fetched individually, skipping missing documents and logging and
skipping fetch failures; the collected items are then re-emitted in the
order of the input ids through a map keyed by item id. -/
def getItemsByIds (fetch : String → FetchResult)
    (itemIds : Option (List String)) : List Item :=
  match itemIds with
  | none => []
  | some ids =>
    if ids.length = 0 then []
    else
      let items : List Item := ids.filterMap fun id =>
        match fetch id with
        | .found it => some { it with id := id }
        | .missing => none
        | .failure => none
      let itemsMap : List (String × Item) := items.map fun it => (it.id, it)
      ids.filterMap fun id => itemsMap.lookup id

/-- Example store used to exercise getItemsByIds: document a exists,
document b does not, and fetching anything else throws. -/
def fetchEx : String → FetchResult := fun id =>
  if id = "a" then .found productAEx
  else if id = "b" then .missing
  else .failure

/-! ## Derived transactions (src/lib/items/index.ts, ledger module) -/

/-- Ledger entry types used by the derived-transaction ledger. -/
inductive LedgerEntryType
  | orderSale
  | bookingPayment
  deriving DecidableEq, Repr

/-- Ledger entry statuses used by the derived-transaction ledger. -/
inductive LedgerEntryStatus
  | pending
  | confirmed
  deriving DecidableEq, Repr

/-- Transaction data derived from orders and bookings (used when ledgers are
disabled). -/
structure DerivedTransaction where
  id : String
  entryType : LedgerEntryType
  status : LedgerEntryStatus
  amount : ℚ
  currency : String
  orderId : Option String := none
  bookingId : Option String := none
  paymentId : Option String := none
  description : String
  createdAt : Int
  source : String
  deriving DecidableEq, Repr

/-- Options accepted by getDerivedTransactions. -/
structure TransactionOptions where
  entryType : Option LedgerEntryType := none
  startDate : Option Int := none
  endDate : Option Int := none
  limit : Option Nat := none
  deriving Repr

/-- getOrders restricted to the arguments getDerivedTransactions passes:
filter by status, order by createdAt descending, take the limit. -/
def getOrdersQuery (ordersDb : List Order) (status : OrderStatus)
    (lim : Nat) : List Order :=
  ((ordersDb.filter fun o => o.status = status).mergeSort
    fun a b => decide (b.createdAt ≤ a.createdAt)).take lim

/-- Modelled from the spec: lib/bookings is not under src; getBookings is
assumed to mirror getOrders (filter by status, order by createdAt
descending, take the limit), as the pass-through query wrappers the spec
describes all do. -/
def getBookingsQuery (bookingsDb : List Booking) (status : BookingStatus)
    (lim : Nat) : List Booking :=
  ((bookingsDb.filter fun b => b.status = status).mergeSort
    fun a b => decide (b.createdAt ≤ a.createdAt)).take lim

/-- Per-status fetch limit of getDerivedTransactions: half the requested
limit rounded up; the guard on the option is falsy, so an absent limit and
a limit of 0 both fall back to 500. -/
def perStatusFetchLimit (lim : Option Nat) : Nat :=
  match lim with
  | some l => if l ≠ 0 then (l + 1) / 2 else 500
  | none => 500

/-- Order statuses treated as successful sales. -/
def successfulOrderStatuses : List OrderStatus :=
  [.paid, .processing, .shipped, .completed]

/-- Booking statuses treated as successful bookings. -/
def successfulBookingStatuses : List BookingStatus :=
  [.paid, .confirmed, .completed]

/-- Whether a transaction date passes the optional date filters (skipped
when before startDate or after endDate). -/
def inDateRange (startDate endDate : Option Int) (d : Int) : Bool :=
  (match startDate with
    | some s => decide (¬ d < s)
    | none => true) &&
  (match endDate with
    | some e => decide (¬ e < d)
    | none => true)

/-- Derived transaction pushed for a successful order with a payment. -/
def orderDerivedTransaction (order : Order) (payment : Payment) :
    DerivedTransaction :=
  { id := "order_" ++ order.id
    entryType := .orderSale
    status := .confirmed
    amount := payment.amount
    currency := if payment.currency ≠ "" then payment.currency else order.pricing.currency
    orderId := some order.id
    paymentId := some payment.paymentId
    description := "Order " ++ order.orderNumber ++ " - " ++
      toString order.items.length ++ " item(s)"
    createdAt := payment.paidAt.getD order.createdAt
    source := "order" }

/-- Derived transaction pushed for a successful booking with a payment. -/
def bookingDerivedTransaction (booking : Booking) (payment : Payment) :
    DerivedTransaction :=
  { id := "booking_" ++ booking.id
    entryType := .bookingPayment
    status := .confirmed
    amount := payment.amount
    currency := if payment.currency ≠ "" then payment.currency else booking.pricing.currency
    bookingId := some booking.id
    paymentId := some payment.paymentId
    description := "Booking " ++ booking.bookingNumber ++ " - " ++ booking.serviceName
    createdAt := payment.paidAt.getD booking.createdAt
    source := "booking" }

/-- Derived transactions pushed by the order loop of getDerivedTransactions:
for each successful status, fetch that slice, keep orders with a payment and
no refund whose transaction date (payment date, falling back to creation
date) passes the date filters, and emit a confirmed transaction each. -/
def derivedOrderTxs (ordersDb : List Order) (options : TransactionOptions) :
    List DerivedTransaction :=
  if options.entryType = none ∨ options.entryType = some .orderSale then
    successfulOrderStatuses.flatMap fun status =>
      (getOrdersQuery ordersDb status (perStatusFetchLimit options.limit)).filterMap
        fun order =>
          match order.payment with
          | none => none
          | some payment =>
            if order.refundedAt.isSome then none
            else
              let transactionDate := payment.paidAt.getD order.createdAt
              if inDateRange options.startDate options.endDate transactionDate then
                some (orderDerivedTransaction order payment)
              else none
  else []

/-- Derived transactions pushed by the booking loop of
getDerivedTransactions. -/
def derivedBookingTxs (bookingsDb : List Booking)
    (options : TransactionOptions) : List DerivedTransaction :=
  if options.entryType = none ∨ options.entryType = some .bookingPayment then
    successfulBookingStatuses.flatMap fun status =>
      (getBookingsQuery bookingsDb status (perStatusFetchLimit options.limit)).filterMap
        fun booking =>
          match booking.payment with
          | none => none
          | some payment =>
            if booking.refundedAt.isSome then none
            else
              let transactionDate := payment.paidAt.getD booking.createdAt
              if inDateRange options.startDate options.endDate transactionDate then
                some (bookingDerivedTransaction booking payment)
              else none
  else []

/-- Combined getDerivedTransactions: push the order transactions, then the
booking transactions, sort by date newest first, and cut to the limit; the
guard on the limit is falsy, so a limit of 0 counts as unset and the full
sorted list is returned. -/
def getDerivedTransactions (ordersDb : List Order) (bookingsDb : List Booking)
    (options : TransactionOptions) : List DerivedTransaction :=
  let transactions :=
    derivedOrderTxs ordersDb options ++ derivedBookingTxs bookingsDb options
  let sorted := transactions.mergeSort fun a b => decide (b.createdAt ≤ a.createdAt)
  match options.limit with
  | some l => if l ≠ 0 then sorted.take l else sorted
  | none => sorted

/-! ## Analytics revenue metrics (src/app/admin/(main)/analytics/page.tsx) -/

/-- Revenue-generating order statuses of the analytics page. -/
def ORDER_REVENUE_STATUSES : List OrderStatus :=
  [.paid, .processing, .shipped, .completed]

/-- Revenue-generating booking statuses of the analytics page. -/
def BOOKING_REVENUE_STATUSES : List BookingStatus :=
  [.paid, .confirmed, .completed]

/-- Milliseconds in a day, the unit of the analytics period arithmetic. -/
def dayMs : Int := 86400000

/-- Date attributed to an order for revenue purposes: the payment date,
falling back to the creation date. -/
def orderRevenueDate (o : Order) : Int :=
  match o.payment with
  | some p => p.paidAt.getD o.createdAt
  | none => o.createdAt

/-- Date attributed to a booking for revenue purposes. -/
def bookingRevenueDate (b : Booking) : Int :=
  match b.payment with
  | some p => p.paidAt.getD b.createdAt
  | none => b.createdAt

/-- Gross amount of an order: the payment amount, falling back (through the
falsiness of 0) to the pricing total and then to 0. -/
def grossOrderAmount (o : Order) : ℚ :=
  match o.payment with
  | some p =>
    if p.amount ≠ 0 then p.amount
    else if o.pricing.total ≠ 0 then o.pricing.total else 0
  | none => if o.pricing.total ≠ 0 then o.pricing.total else 0

/-- Gross amount of a booking, analogous to the order version. -/
def grossBookingAmount (b : Booking) : ℚ :=
  match b.payment with
  | some p =>
    if p.amount ≠ 0 then p.amount
    else if b.pricing.total ≠ 0 then b.pricing.total else 0
  | none => if b.pricing.total ≠ 0 then b.pricing.total else 0

/-- Revenue metrics computed by the analytics dashboard. -/
structure AnalyticsMetrics where
  totalRevenue : ℚ
  grossRevenue : ℚ
  transactionFees : ℚ
  previousRevenue : ℚ
  revenueGrowth : ℚ
  deriving DecidableEq, Repr

/-- Revenue metrics of the analytics page: gross revenue sums the gross
amounts of revenue-status orders and bookings with a payment dated in the
period, net revenue subtracts the default-rate transaction fee cost on the
gross, and growth compares against the preceding period of equal length
(100 or 0 when the preceding net revenue is not positive). -/
def analyticsMetrics (orders : List Order) (bookings : List Booking)
    (now days : Int) : AnalyticsMetrics :=
  let startDate := now - days * dayMs
  let currentGrossRevenue :=
    ((orders.filter fun o =>
        decide (o.status ∈ ORDER_REVENUE_STATUSES) && o.payment.isSome &&
        decide (orderRevenueDate o ≥ startDate)).foldl
      (fun sum o => sum + grossOrderAmount o) 0) +
    ((bookings.filter fun b =>
        decide (b.status ∈ BOOKING_REVENUE_STATUSES) && b.payment.isSome &&
        decide (bookingRevenueDate b ≥ startDate)).foldl
      (fun sum b => sum + grossBookingAmount b) 0)
  let currentTransactionFees :=
    calculateTransactionFeeCost currentGrossRevenue DEFAULT_TRANSACTION_FEE_RATE
  let currentRevenue := currentGrossRevenue - currentTransactionFees
  let previousPeriodStart := now - 2 * days * dayMs
  let previousPeriodEnd := now - days * dayMs
  let previousGrossRevenue :=
    ((orders.filter fun o =>
        decide (o.status ∈ ORDER_REVENUE_STATUSES) && o.payment.isSome &&
        decide (orderRevenueDate o ≥ previousPeriodStart) &&
        decide (orderRevenueDate o < previousPeriodEnd)).foldl
      (fun sum o => sum + grossOrderAmount o) 0) +
    ((bookings.filter fun b =>
        decide (b.status ∈ BOOKING_REVENUE_STATUSES) && b.payment.isSome &&
        decide (bookingRevenueDate b ≥ previousPeriodStart) &&
        decide (bookingRevenueDate b < previousPeriodEnd)).foldl
      (fun sum b => sum + grossBookingAmount b) 0)
  let previousTransactionFees :=
    calculateTransactionFeeCost previousGrossRevenue DEFAULT_TRANSACTION_FEE_RATE
  let previousRevenue := previousGrossRevenue - previousTransactionFees
  let revenueGrowth :=
    if previousRevenue > 0 then
      (currentRevenue - previousRevenue) / previousRevenue * 100
    else if currentRevenue > 0 then 100 else 0
  { totalRevenue := currentRevenue
    grossRevenue := currentGrossRevenue
    transactionFees := currentTransactionFees
    previousRevenue := previousRevenue
    revenueGrowth := revenueGrowth }

/-- Example payment dated early on the timeline. -/
def paidPaymentEx : Payment :=
  { amount := 100, currency := "MWK", paymentId := "p1", paidAt := some 10 }

/-- Example paid order with a payment in the early period, used to exercise
the derived transactions and the analytics metrics. -/
def paidOrderEx : Order :=
  { id := "o3", orderNumber := "ORD-3", status := .paid,
    customerEmail := "a@b.c", customerName := "A",
    items := ["i1"], pricing := { total := 100, currency := "MWK" },
    payment := some paidPaymentEx,
    refundedAt := none, createdAt := 5, updatedAt := 5,
    canceledAt := none, canceledReason := none }

end EshopCure

namespace EshopCure

/-- C1: the order and booking status transition functions return true exactly
on the pairs listed in the claim, and false on every other pair of strings. -/
theorem transition_tables_characterized (s t : String) :
    (isValidOrderStatusTransition s t = true ↔
      ((s = "pending" ∧ t = "paid") ∨ (s = "pending" ∧ t = "canceled") ∨
       (s = "paid" ∧ t = "processing") ∨ (s = "paid" ∧ t = "canceled") ∨
       (s = "paid" ∧ t = "refunded") ∨ (s = "processing" ∧ t = "shipped") ∨
       (s = "processing" ∧ t = "canceled") ∨ (s = "shipped" ∧ t = "completed") ∨
       (s = "shipped" ∧ t = "canceled"))) ∧
    (isValidBookingStatusTransition s t = true ↔
      ((s = "pending" ∧ t = "paid") ∨ (s = "pending" ∧ t = "canceled") ∨
       (s = "paid" ∧ t = "confirmed") ∨ (s = "paid" ∧ t = "canceled") ∨
       (s = "paid" ∧ t = "refunded") ∨ (s = "confirmed" ∧ t = "completed") ∨
       (s = "confirmed" ∧ t = "canceled") ∨ (s = "confirmed" ∧ t = "no_show"))) := by
  constructor
  · unfold isValidOrderStatusTransition orderValidTransitions
    by_cases h1 : s = "pending" <;> by_cases h2 : s = "paid" <;>
      by_cases h3 : s = "processing" <;> by_cases h4 : s = "shipped" <;>
      by_cases h5 : s = "completed" <;> by_cases h6 : s = "canceled" <;>
      by_cases h7 : s = "refunded" <;>
      simp_all [List.lookup, Bool.beq_eq_decide_eq]
  · unfold isValidBookingStatusTransition bookingValidTransitions
    by_cases h1 : s = "pending" <;> by_cases h2 : s = "paid" <;>
      by_cases h3 : s = "confirmed" <;> by_cases h4 : s = "completed" <;>
      by_cases h5 : s = "canceled" <;> by_cases h6 : s = "no_show" <;>
      by_cases h7 : s = "refunded" <;>
      simp_all [List.lookup, Bool.beq_eq_decide_eq]

/-- C2: updateOrder throws NotFoundError on a missing order, throws
ValidationError on a status change the transition table forbids, performs no
write in either error case, and otherwise writes the provided fields plus an
updated timestamp. -/
theorem updateOrder_guards (store : OrderStore) (orderId : String)
    (u : OrderUpdates) (now : Int) :
    (store orderId = none →
      updateOrder store orderId u now = (.error .notFound, store)) ∧
    (∀ cur, store orderId = some cur →
      ∀ s, u.status = some s → s ≠ cur.status →
        isValidOrderStatusTransition cur.status.toStr s.toStr = false →
        updateOrder store orderId u now = (.error .validation, store)) ∧
    (∀ cur, store orderId = some cur →
      (∀ s, u.status = some s →
        s = cur.status ∨ isValidOrderStatusTransition cur.status.toStr s.toStr = true) →
      updateOrder store orderId u now =
        (.ok (), fun k =>
          if k = orderId then some (applyOrderUpdates cur u now) else store k)) := by
  refine ⟨fun hnone => ?_, fun cur hcur s hs hne hbad => ?_, fun cur hcur hok => ?_⟩
  · simp [updateOrder, hnone]
  · simp only [updateOrder, hcur]
    rw [hs]
    simp [hne, hbad]
  · simp only [updateOrder, hcur]
    rcases hu : u.status with _ | s
    · simp
    · rcases hok s hu with hEq | hValid
      · simp [hEq]
      · simp [hValid]



/-- Witness for C2: on a store holding a pending order, updating the status
to paid succeeds and writes the merged document. -/
theorem updateOrder_guards_witness :
    pendingStoreEx "o1" = some pendingOrderEx ∧
    updateOrder pendingStoreEx "o1" { status := some .paid } 7 =
      (.ok (), fun k =>
        if k = "o1" then some (applyOrderUpdates pendingOrderEx { status := some .paid } 7)
        else pendingStoreEx k) :=
  ⟨by decide,
    (updateOrder_guards pendingStoreEx "o1" { status := some .paid } 7).2.2
      pendingOrderEx (by decide)
      (fun s hs => by cases hs; right; decide)⟩



/-- Counterexample to C3 as stated: the refunded order is neither completed
nor canceled, yet cancelOrder throws ValidationError (from the transition
check inside updateOrder) instead of setting the status to canceled. -/
theorem cancelOrder_refunded_counterexample :
    refundedOrderEx.status ≠ OrderStatus.completed ∧
    refundedOrderEx.status ≠ OrderStatus.canceled ∧
    (cancelOrder refundedStoreEx "o2" none 5).1 = .error .validation ∧
    (cancelOrder refundedStoreEx "o2" none 5).2 "o2" = some refundedOrderEx := by
  refine ⟨by decide, by decide, ?_, ?_⟩ <;>
    simp [cancelOrder, updateOrder, refundedStoreEx, refundedOrderEx,
      isValidOrderStatusTransition, orderValidTransitions, OrderStatus.toStr,
      List.lookup]

/-- C3 amended: for an existing order, cancelOrder throws ValidationError and
leaves the store unchanged when the status is completed, canceled, or
refunded (the last rejected by the transition table inside updateOrder);
for the remaining statuses (pending, paid, processing, shipped) it writes
the canceled status together with canceledAt and the optional reason. -/
theorem cancelOrder_amended (store : OrderStore) (orderId : String)
    (reason : Option String) (now : Int) (order : Order)
    (hfind : store orderId = some order) :
    ((order.status = .completed ∨ order.status = .canceled ∨ order.status = .refunded) →
      cancelOrder store orderId reason now = (.error .validation, store)) ∧
    (order.status ≠ .completed → order.status ≠ .canceled → order.status ≠ .refunded →
      cancelOrder store orderId reason now =
        (.ok (), fun k =>
          if k = orderId then
            some (applyOrderUpdates order
              { status := some .canceled, canceledAt := some now,
                canceledReason := reason } now)
          else store k)) := by
  constructor
  · intro hbad
    rcases hbad with h | h | h <;>
      simp [cancelOrder, updateOrder, hfind, h, isValidOrderStatusTransition,
        orderValidTransitions, OrderStatus.toStr, List.lookup]
  · intro h1 h2 h3
    cases hst : order.status <;> simp_all <;>
      simp [cancelOrder, updateOrder, hfind, hst, isValidOrderStatusTransition,
        orderValidTransitions, OrderStatus.toStr, List.lookup]

/-- Witness for C3 amended: on the refunded example order, cancelOrder
reports ValidationError and the store is untouched. -/
theorem cancelOrder_amended_witness :
    refundedStoreEx "o2" = some refundedOrderEx ∧
    (refundedOrderEx.status = .completed ∨ refundedOrderEx.status = .canceled ∨
      refundedOrderEx.status = .refunded) ∧
    cancelOrder refundedStoreEx "o2" none 5 = (.error .validation, refundedStoreEx) :=
  ⟨by decide, by decide,
    (cancelOrder_amended refundedStoreEx "o2" none 5 refundedOrderEx (by decide)).1
      (by decide)⟩

/-- C4: the product card applies the promotion to the base price before the
transaction fee; the displayed price is getFinalPrice of the base price and
the promotion price, the fee is added only when enabled, the strikethrough
price is getEffectivePrice of the undiscounted base price, and without a
promotion the displayed price equals that effective price. -/
theorem productCard_price_composition (pricing : ItemPricing)
    (promotion : Option Promotion) :
    (∀ promo, promotion = some promo →
      productCardDisplayPrice pricing promotion =
        getFinalPrice pricing.basePrice
          (some (calculatePromotionPrice pricing.basePrice promo))
          pricing.includeTransactionFee pricing.transactionFeeRate ∧
      (pricing.includeTransactionFee = true →
        productCardDisplayPrice pricing promotion =
          calculatePromotionPrice pricing.basePrice promo +
            calculateTransactionFeeCost
              (calculatePromotionPrice pricing.basePrice promo)
              (pricing.transactionFeeRate.getD DEFAULT_TRANSACTION_FEE_RATE)) ∧
      (pricing.includeTransactionFee = false →
        productCardDisplayPrice pricing promotion =
          calculatePromotionPrice pricing.basePrice promo)) ∧
    productCardEffectivePrice pricing =
      getEffectivePrice pricing.basePrice
        pricing.includeTransactionFee pricing.transactionFeeRate ∧
    (promotion = none →
      productCardDisplayPrice pricing promotion = productCardEffectivePrice pricing) := by
  refine ⟨fun promo hpromo => ?_, rfl, fun hnone => ?_⟩
  · subst hpromo
    refine ⟨rfl, fun hfee => ?_, fun hfee => ?_⟩ <;>
      simp [productCardDisplayPrice, getFinalPrice, hfee]
  · subst hnone
    simp [productCardDisplayPrice, getFinalPrice, productCardEffectivePrice]

/-- Witness for C4: a 100-unit product with a 20-unit promotion and the fee
enabled at 5 percent displays 84, while the strikethrough price is 105. -/
theorem productCard_price_composition_witness :
    (some { discount := 20 } : Option Promotion) = some { discount := 20 } ∧
    productCardDisplayPrice
      { basePrice := 100, includeTransactionFee := true, transactionFeeRate := some 5 }
      (some { discount := 20 }) =
      calculatePromotionPrice 100 { discount := 20 } +
        calculateTransactionFeeCost (calculatePromotionPrice 100 { discount := 20 })
          ((some (5 : ℚ)).getD DEFAULT_TRANSACTION_FEE_RATE) :=
  ⟨rfl,
    ((productCard_price_composition
        { basePrice := 100, includeTransactionFee := true, transactionFeeRate := some 5 }
        (some { discount := 20 })).1 { discount := 20 } rfl).2.1 rfl⟩

/-! ### Cart helper lemmas -/

/-- Adding an item either keeps the id list (when the product is already in
the cart) or appends the new id at the end. -/
lemma cartIds_addItem (items : List CartItem) (p : Item) (q : Int)
    (v : Option (List (String × String))) :
    cartIds (addItem items p q v) =
      if p.id ∈ cartIds items then cartIds items else cartIds items ++ [p.id] := by
  induction items with
  | nil => simp [addItem, cartIds]
  | cons it rest ih =>
    by_cases h : it.product.id = p.id
    · simp [addItem, cartIds, h]
    · have h2 : ¬ p.id = it.product.id := fun hh => h hh.symm
      simp only [addItem, if_neg h, cartIds, List.map_cons] at *
      rw [ih]
      by_cases hm : p.id ∈ rest.map fun item => item.product.id <;>
        simp [List.mem_cons, h2, hm]

/-- removeItem filters the id list. -/
lemma cartIds_removeItem (items : List CartItem) (pid : String) :
    cartIds (removeItem items pid) = (cartIds items).filter (fun x => x ≠ pid) := by
  simp [cartIds, removeItem, List.filter_map, Function.comp_def]

/-- A positive-quantity update leaves the id list unchanged. -/
lemma cartIds_updateQuantity_pos (items : List CartItem) (pid : String)
    (q : Int) (hq : ¬ q ≤ 0) :
    cartIds (updateQuantity items pid q) = cartIds items := by
  simp only [updateQuantity, if_neg hq, cartIds, List.map_map]
  apply List.map_congr_left
  intro a _
  by_cases hc : a.product.id = pid <;> simp [hc]

/-- Adding a product already in a duplicate-free cart bumps the quantity of
its line and touches nothing else. -/
lemma addItem_mem_eq (p : Item) (q : Int)
    (v : Option (List (String × String))) (items : List CartItem)
    (h : (cartIds items).Nodup) (hm : p.id ∈ cartIds items) :
    addItem items p q v =
      items.map fun it =>
        if it.product.id = p.id then { it with quantity := it.quantity + q }
        else it := by
  induction items with
  | nil => simp [cartIds] at hm
  | cons it rest ih =>
    simp only [cartIds, List.map_cons, List.nodup_cons] at h
    by_cases hc : it.product.id = p.id
    · simp only [addItem, if_pos hc, List.map_cons, if_pos hc]
      congr 1
      have hall : ∀ x ∈ rest, x.product.id ≠ p.id := by
        intro x hx hxe
        have hmem : p.id ∈ rest.map fun item => item.product.id := by
          have hbase := List.mem_map_of_mem (fun item => item.product.id) hx
          simpa [hxe] using hbase
        apply h.1
        rw [hc]
        exact hmem
      symm
      calc rest.map (fun x =>
              if x.product.id = p.id then { x with quantity := x.quantity + q }
              else x)
          = rest.map (fun x => x) :=
            List.map_congr_left fun x hx => by simp [hall x hx]
        _ = rest := List.map_id' rest
    · have hm' : p.id ∈ cartIds rest := by
        rcases List.mem_cons.1 hm with heq | hmem
        · exact absurd heq.symm hc
        · exact hmem
      simp only [addItem, if_neg hc, List.map_cons, if_neg hc]
      exact congrArg (it :: ·) (ih h.2 hm')

/-- Adding a product not yet in the cart appends exactly one line. -/
lemma addItem_not_mem_eq (p : Item) (q : Int)
    (v : Option (List (String × String))) (items : List CartItem)
    (hm : p.id ∉ cartIds items) :
    addItem items p q v =
      items ++ [{ product := p, quantity := q, selectedVariants := v }] := by
  induction items with
  | nil => simp [addItem]
  | cons it rest ih =>
    simp only [cartIds, List.map_cons, List.mem_cons] at hm
    push_neg at hm
    have hc : ¬ it.product.id = p.id := fun hh => hm.1 hh.symm
    simp only [addItem, if_neg hc, List.cons_append]
    exact congrArg (it :: ·) (ih hm.2)

/-- C9: the cart operations preserve distinctness of the line product ids;
addItem bumps the quantity of an existing line or appends exactly one new
line; a non-positive quantity update removes the line; clearCart empties the
cart. -/
theorem cart_operations_invariant (items : List CartItem) (p : Item) (q : Int)
    (v : Option (List (String × String))) (pid : String) :
    ((cartIds items).Nodup →
      (cartIds (addItem items p q v)).Nodup ∧
      (cartIds (removeItem items pid)).Nodup ∧
      (cartIds (updateQuantity items pid q)).Nodup) ∧
    ((cartIds items).Nodup → p.id ∈ cartIds items →
      addItem items p q v =
        items.map fun it =>
          if it.product.id = p.id then { it with quantity := it.quantity + q }
          else it) ∧
    (p.id ∉ cartIds items →
      addItem items p q v =
        items ++ [{ product := p, quantity := q, selectedVariants := v }]) ∧
    (q ≤ 0 → updateQuantity items pid q = removeItem items pid) ∧
    clearCart = ([] : List CartItem) := by
  refine ⟨fun h => ⟨?_, ?_, ?_⟩, addItem_mem_eq p q v items,
    addItem_not_mem_eq p q v items, fun hq => ?_, rfl⟩
  · rw [cartIds_addItem]
    by_cases hm : p.id ∈ cartIds items
    · simpa [hm] using h
    · simp [hm, List.nodup_append, h]
  · rw [cartIds_removeItem]
    exact h.filter _
  · by_cases hq : q ≤ 0
    · rw [updateQuantity, if_pos hq, cartIds_removeItem]
      exact h.filter _
    · rw [cartIds_updateQuantity_pos items pid q hq]
      exact h
  · rw [updateQuantity, if_pos hq]




/-- Witness for C9: on a two-line cart with distinct ids, adding the first
product again keeps the ids duplicate-free. -/
theorem cart_operations_invariant_witness :
    (cartIds cartEx).Nodup ∧ (cartIds (addItem cartEx productAEx 3 none)).Nodup :=
  ⟨by decide, ((cart_operations_invariant cartEx productAEx 3 none "a").1 (by decide)).1⟩

/-- C5: itemCount and totalAmount are the sums of quantities and of
effective price times quantity over the cart lines; the cart page subtotal
is the sum of the promotion-adjusted effective price times quantity, tax is
subtotal times the configured percentage tax rate over 100 (0 when unset),
and the estimated total is subtotal plus tax with delivery contributing 0. -/
theorem cart_totals (items : List CartItem)
    (findItemPromotion : Item → List Promotion → Option Promotion)
    (getItemEffectivePrice : Item → Option Promotion → ℚ)
    (promotions : List Promotion) (settings : Option Settings) :
    cartItemCount items = (items.map fun it => it.quantity).sum ∧
    cartTotalAmount items =
      (items.map fun it =>
        getEffectivePrice it.product.pricing.basePrice
          it.product.pricing.includeTransactionFee
          it.product.pricing.transactionFeeRate * it.quantity).sum ∧
    cartSubtotal findItemPromotion getItemEffectivePrice items promotions =
      (items.map fun it =>
        getItemEffectivePrice it.product
          (findItemPromotion it.product promotions) * it.quantity).sum ∧
    cartTax (cartSubtotal findItemPromotion getItemEffectivePrice items promotions)
        (cartTaxRate settings) =
      cartSubtotal findItemPromotion getItemEffectivePrice items promotions *
        (cartTaxRate settings / 100) ∧
    ((settings.bind Settings.payment).bind PaymentSettings.taxRate = none →
      cartTaxRate settings = 0) ∧
    cartEstimatedTotal
        (cartSubtotal findItemPromotion getItemEffectivePrice items promotions)
        (cartTax (cartSubtotal findItemPromotion getItemEffectivePrice items promotions)
          (cartTaxRate settings)) =
      cartSubtotal findItemPromotion getItemEffectivePrice items promotions +
        cartSubtotal findItemPromotion getItemEffectivePrice items promotions *
          (cartTaxRate settings / 100) + cartDelivery := by
  refine ⟨?_, ?_, ?_, rfl, fun hnone => ?_, ?_⟩
  · rw [cartItemCount, List.sum_eq_foldl, List.foldl_map]
  · rw [cartTotalAmount, List.sum_eq_foldl, List.foldl_map]
  · rw [cartSubtotal, List.sum_eq_foldl, List.foldl_map]
  · simp [cartTaxRate, hnone]
  · simp [cartEstimatedTotal, cartTax, cartDelivery]

/-- Witness for C5: with no settings document the tax rate is 0 and the
estimated total degenerates to the subtotal. -/
theorem cart_totals_witness :
    ((none : Option Settings).bind Settings.payment).bind PaymentSettings.taxRate =
      none ∧
    cartTaxRate none = 0 :=
  ⟨rfl,
    (cart_totals [] (fun _ _ => none) (fun _ _ => 0) [] none).2.2.2.2.1 rfl⟩

/-- C8: with the secret key not configured, which through the falsy guard
means unset or set to the empty string, verifyRecaptcha passes every token
(the empty one included) and never consults the network outcome; with a
nonempty key configured, an empty token fails, and a failed or thrown
verification request yields false rather than an exception. -/
theorem verifyRecaptcha_behavior (k token : String) (net net2 : RecaptchaNet) :
    verifyRecaptcha none net token = true ∧
    verifyRecaptcha (some "") net token = true ∧
    verifyRecaptcha none net token = verifyRecaptcha none net2 token ∧
    verifyRecaptcha (some "") net token = verifyRecaptcha (some "") net2 token ∧
    (k ≠ "" →
      verifyRecaptcha (some k) net "" = false ∧
      (token ≠ "" →
        verifyRecaptcha (some k) .errored token = false ∧
        verifyRecaptcha (some k) (.responded false) token = false)) := by
  refine ⟨rfl, ?_, rfl, ?_, fun hk => ⟨?_, fun ht => ⟨?_, ?_⟩⟩⟩
  · simp [verifyRecaptcha]
  · simp [verifyRecaptcha]
  · simp [verifyRecaptcha, hk]
  · simp [verifyRecaptcha, hk, ht]
  · simp [verifyRecaptcha, hk, ht]

/-- Witness for C8: with the nonempty key set, the empty token is rejected,
and a nonempty token is rejected when the request errors or reports
failure. -/
theorem verifyRecaptcha_behavior_witness :
    ("secret" : String) ≠ "" ∧
    verifyRecaptcha (some "secret") .errored "" = false ∧
    ("tok" : String) ≠ "" ∧
    (verifyRecaptcha (some "secret") .errored "tok" = false ∧
      verifyRecaptcha (some "secret") (.responded false) "tok" = false) :=
  ⟨by decide,
    ((verifyRecaptcha_behavior "secret" "tok" .errored .errored).2.2.2.2
      (by decide)).1,
    by decide,
    ((verifyRecaptcha_behavior "secret" "tok" .errored .errored).2.2.2.2
      (by decide)).2 (by decide)⟩

/-! ### getItemsByIds helper lemmas -/

/-- Looking up an id in the association list built from the fetched items
finds the fetched document exactly when the id occurs in the list and its
fetch found a document. -/
lemma lookup_fetched_assoc (fetch : String → FetchResult) (ids : List String)
    (id : String) :
    ((ids.filterMap fun k =>
        match fetch k with
        | .found it => some (k, { it with id := k })
        | .missing => none
        | .failure => none).lookup id) =
      if id ∈ ids then
        (match fetch id with
          | .found it => some { it with id := id }
          | .missing => none
          | .failure => none)
      else none := by
  induction ids with
  | nil => simp
  | cons k rest ih =>
    by_cases hk : id = k
    · subst hk
      cases hf : fetch id <;>
        simp [List.filterMap_cons, hf, List.lookup, ih]
    · cases hf : fetch k <;>
        simp [List.filterMap_cons, hf, List.lookup, hk,
          Bool.beq_eq_decide_eq, ih]

/-- getItemsByIds is the one-pass filterMap over the input ids: the id-keyed
map re-emits exactly the found documents in input order. -/
lemma getItemsByIds_eq (fetch : String → FetchResult) (ids : List String) :
    getItemsByIds fetch (some ids) =
      ids.filterMap fun id =>
        match fetch id with
        | .found it => some { it with id := id }
        | .missing => none
        | .failure => none := by
  by_cases hlen : ids.length = 0
  · rw [List.length_eq_zero] at hlen
    subst hlen
    simp [getItemsByIds]
  · simp only [getItemsByIds, if_neg hlen]
    apply List.filterMap_congr
    intro id hid
    rw [List.map_filterMap]
    have hshape :
        (ids.filterMap fun k =>
          ((match fetch k with
            | .found it => some { it with id := k }
            | .missing => none
            | .failure => none : Option Item)).map fun it => (it.id, it)) =
        ids.filterMap fun k =>
          match fetch k with
          | .found it => some (k, { it with id := k })
          | .missing => none
          | .failure => none := by
      apply List.filterMap_congr
      intro k _
      cases hf : fetch k <;> simp [hf]
    rw [hshape, lookup_fetched_assoc, if_pos hid]

/-- The ids of the returned items are the input ids filtered to those whose
fetch found a document. -/
lemma getItemsByIds_map_id (fetch : String → FetchResult) (ids : List String) :
    (getItemsByIds fetch (some ids)).map (fun it => it.id) =
      ids.filter fun id => (fetch id).isFound := by
  rw [getItemsByIds_eq, List.map_filterMap]
  induction ids with
  | nil => simp
  | cons k rest ih =>
    cases hf : fetch k <;>
      simp [List.filterMap_cons, List.filter_cons, hf, FetchResult.isFound, ih]

/-- C10: getItemsByIds returns only items whose id appears in the input and
whose fetch found a document, in the relative order of the input ids, with
missing documents and failed fetches silently skipped; a null or empty
input yields the empty list. -/
theorem getItemsByIds_properties (fetch : String → FetchResult)
    (ids : List String) :
    getItemsByIds fetch none = [] ∧
    getItemsByIds fetch (some []) = [] ∧
    (∀ it ∈ getItemsByIds fetch (some ids),
      it.id ∈ ids ∧ ∃ d, fetch it.id = .found d ∧ it = { d with id := it.id }) ∧
    ((getItemsByIds fetch (some ids)).map fun it => it.id).Sublist ids ∧
    (∀ id ∈ ids, (fetch id = .missing ∨ fetch id = .failure) →
      id ∉ (getItemsByIds fetch (some ids)).map fun it => it.id) := by
  refine ⟨rfl, by simp [getItemsByIds], fun it hit => ?_, ?_, fun id hid hbad => ?_⟩
  · rw [getItemsByIds_eq] at hit
    obtain ⟨id, hid, hg⟩ := List.mem_filterMap.1 hit
    cases hf : fetch id with
    | found d =>
      rw [hf] at hg
      obtain rfl := Option.some_injective _ hg
      exact ⟨hid, d, by simpa using hf, rfl⟩
    | missing => rw [hf] at hg; cases hg
    | failure => rw [hf] at hg; cases hg
  · rw [getItemsByIds_map_id]
    exact List.filter_sublist _
  · rw [getItemsByIds_map_id]
    intro hmem
    have := (List.mem_filter.1 hmem).2
    rcases hbad with hb | hb <;> rw [hb] at this <;> cases this

/-- Witness for C10: id b is in the input but its document is missing, so it
does not appear among the returned ids. -/
theorem getItemsByIds_properties_witness :
    ("b" ∈ ["a", "b", "c"] ∧ fetchEx "b" = .missing) ∧
    "b" ∉ (getItemsByIds fetchEx (some ["a", "b", "c"])).map fun it => it.id :=
  ⟨⟨by decide, by decide⟩,
    (getItemsByIds_properties fetchEx ["a", "b", "c"]).2.2.2.2 "b" (by decide)
      (Or.inl (by decide))⟩

/-! ### Derived-transaction helper lemmas -/

/-- Membership in a fetched order slice implies membership in the collection
and the queried status. -/
lemma mem_getOrdersQuery {ordersDb : List Order} {status : OrderStatus}
    {lim : Nat} {o : Order} (h : o ∈ getOrdersQuery ordersDb status lim) :
    o ∈ ordersDb ∧ o.status = status := by
  have h1 := List.mem_of_mem_take h
  rw [List.mem_mergeSort] at h1
  have h2 := List.mem_filter.1 h1
  exact ⟨h2.1, by simpa using h2.2⟩

/-- Membership in a fetched booking slice implies membership in the
collection and the queried status. -/
lemma mem_getBookingsQuery {bookingsDb : List Booking} {status : BookingStatus}
    {lim : Nat} {b : Booking} (h : b ∈ getBookingsQuery bookingsDb status lim) :
    b ∈ bookingsDb ∧ b.status = status := by
  have h1 := List.mem_of_mem_take h
  rw [List.mem_mergeSort] at h1
  have h2 := List.mem_filter.1 h1
  exact ⟨h2.1, by simpa using h2.2⟩

/-- Sorting by the descending-date comparator yields a list that is pairwise
descending in dates. -/
lemma pairwise_date_mergeSort (l : List DerivedTransaction) :
    (l.mergeSort fun a b => decide (b.createdAt ≤ a.createdAt)).Pairwise
      (fun a b => b.createdAt ≤ a.createdAt) := by
  have hs := @List.sorted_mergeSort DerivedTransaction
    (fun a b => decide (b.createdAt ≤ a.createdAt))
    (fun a b c hab hbc => by
      simp only [decide_eq_true_eq] at *
      exact le_trans hbc hab)
    (fun a b => by
      simp only [Bool.or_eq_true, decide_eq_true_eq]
      exact le_total b.createdAt a.createdAt) l
  exact hs.imp fun hab => by simpa using hab

/-- C6 amended: every derived transaction comes from a successful-status
order or booking with a payment and no refund, dated inside the requested
range, carries status CONFIRMED and the payment amount; the output is
sorted by date newest first, and a nonzero requested limit bounds its
length (a limit of 0 is falsy in the source and treated as unset). -/
theorem getDerivedTransactions_properties (ordersDb : List Order)
    (bookingsDb : List Booking) (options : TransactionOptions) :
    (∀ tx ∈ getDerivedTransactions ordersDb bookingsDb options,
      tx.status = LedgerEntryStatus.confirmed ∧
      inDateRange options.startDate options.endDate tx.createdAt = true ∧
      ((∃ order ∈ ordersDb, ∃ payment,
          order.status ∈ successfulOrderStatuses ∧
          order.payment = some payment ∧
          order.refundedAt = none ∧
          tx.amount = payment.amount ∧
          tx.createdAt = payment.paidAt.getD order.createdAt) ∨
        (∃ booking ∈ bookingsDb, ∃ payment,
          booking.status ∈ successfulBookingStatuses ∧
          booking.payment = some payment ∧
          booking.refundedAt = none ∧
          tx.amount = payment.amount ∧
          tx.createdAt = payment.paidAt.getD booking.createdAt))) ∧
    (getDerivedTransactions ordersDb bookingsDb options).Pairwise
      (fun a b => b.createdAt ≤ a.createdAt) ∧
    (∀ l, options.limit = some l → l ≠ 0 →
      (getDerivedTransactions ordersDb bookingsDb options).length ≤ l) := by
  refine ⟨fun tx htx => ?_, ?_, fun l hl hl0 => ?_⟩
  · have hsorted : tx ∈
        (derivedOrderTxs ordersDb options ++
          derivedBookingTxs bookingsDb options).mergeSort
          (fun a b => decide (b.createdAt ≤ a.createdAt)) := by
      simp only [getDerivedTransactions] at htx
      split at htx
      · split at htx
        · exact List.mem_of_mem_take htx
        · exact htx
      · exact htx
    rw [List.mem_mergeSort] at hsorted
    rcases List.mem_append.1 hsorted with hside | hside
    · -- order side
      rw [derivedOrderTxs] at hside
      by_cases hcond : options.entryType = none ∨ options.entryType = some .orderSale
      · rw [if_pos hcond] at hside
        obtain ⟨status, hstatus, htx2⟩ := List.mem_flatMap.1 hside
        obtain ⟨order, horder, hf⟩ := List.mem_filterMap.1 htx2
        rcases hp : order.payment with _ | payment
        · rw [hp] at hf
          cases hf
        · rw [hp] at hf
          rcases hr : order.refundedAt.isSome with _ | _
          · rw [hr] at hf
            simp only [Bool.false_eq_true, if_false] at hf
            rcases hd : inDateRange options.startDate options.endDate
                (payment.paidAt.getD order.createdAt) with _ | _
            · rw [hd] at hf
              cases hf
            · rw [hd] at hf
              obtain rfl := Option.some_injective _ hf
              have hq := mem_getOrdersQuery horder
              have hrn : order.refundedAt = none := by
                cases hro : order.refundedAt
                · rfl
                · rw [hro] at hr
                  cases hr
              exact ⟨rfl, hd,
                Or.inl ⟨order, hq.1, payment, hq.2 ▸ hstatus, hp, hrn, rfl, rfl⟩⟩
          · rw [hr] at hf
            simp only [if_true] at hf
            cases hf
      · rw [if_neg hcond] at hside
        cases hside
    · -- booking side
      rw [derivedBookingTxs] at hside
      by_cases hcond : options.entryType = none ∨ options.entryType = some .bookingPayment
      · rw [if_pos hcond] at hside
        obtain ⟨status, hstatus, htx2⟩ := List.mem_flatMap.1 hside
        obtain ⟨booking, hbooking, hf⟩ := List.mem_filterMap.1 htx2
        rcases hp : booking.payment with _ | payment
        · rw [hp] at hf
          cases hf
        · rw [hp] at hf
          rcases hr : booking.refundedAt.isSome with _ | _
          · rw [hr] at hf
            simp only [Bool.false_eq_true, if_false] at hf
            rcases hd : inDateRange options.startDate options.endDate
                (payment.paidAt.getD booking.createdAt) with _ | _
            · rw [hd] at hf
              cases hf
            · rw [hd] at hf
              obtain rfl := Option.some_injective _ hf
              have hq := mem_getBookingsQuery hbooking
              have hrn : booking.refundedAt = none := by
                cases hro : booking.refundedAt
                · rfl
                · rw [hro] at hr
                  cases hr
              exact ⟨rfl, hd,
                Or.inr ⟨booking, hq.1, payment, hq.2 ▸ hstatus, hp, hrn, rfl, rfl⟩⟩
          · rw [hr] at hf
            simp only [if_true] at hf
            cases hf
      · rw [if_neg hcond] at hside
        cases hside
  · simp only [getDerivedTransactions]
    split
    · split
      · exact (pairwise_date_mergeSort _).sublist (List.take_sublist _ _)
      · exact pairwise_date_mergeSort _
    · exact pairwise_date_mergeSort _
  · simp only [getDerivedTransactions, hl]
    rw [if_pos hl0, List.length_take]
    exact min_le_left _ _

/-- Evaluation of getDerivedTransactions on the singleton example database
with no limit: only the paid slice contributes, yielding one confirmed
transaction. -/
lemma getDerivedTransactions_paidOrderEx :
    getDerivedTransactions [paidOrderEx] [] {} =
      [orderDerivedTransaction paidOrderEx paidPaymentEx] := by
  simp [getDerivedTransactions, derivedOrderTxs, derivedBookingTxs,
    successfulOrderStatuses, successfulBookingStatuses, getOrdersQuery,
    getBookingsQuery, perStatusFetchLimit, inDateRange, paidOrderEx,
    paidPaymentEx, List.flatMap_cons, List.filter_cons]

/-- Evaluation of getDerivedTransactions on the singleton example database
with a limit of 0: the falsy guards ignore the limit, so the full
single-transaction list comes back. -/
lemma getDerivedTransactions_paidOrderEx_limit_zero :
    getDerivedTransactions [paidOrderEx] [] { limit := some 0 } =
      [orderDerivedTransaction paidOrderEx paidPaymentEx] := by
  simp [getDerivedTransactions, derivedOrderTxs, derivedBookingTxs,
    successfulOrderStatuses, successfulBookingStatuses, getOrdersQuery,
    getBookingsQuery, perStatusFetchLimit, inDateRange, paidOrderEx,
    paidPaymentEx, List.flatMap_cons, List.filter_cons]

/-- Counterexample to C6 as stated: with one paid order and a requested
limit of 0, the source's truthy limit guards treat 0 as unset, so the
returned list has length 1, exceeding the given limit. -/
theorem getDerivedTransactions_limit_zero_counterexample :
    ({ limit := some 0 } : TransactionOptions).limit = some 0 ∧
    (getDerivedTransactions [paidOrderEx] [] { limit := some 0 }).length = 1 ∧
    ¬ (getDerivedTransactions [paidOrderEx] [] { limit := some 0 }).length ≤ 0 := by
  refine ⟨rfl, ?_, ?_⟩ <;>
    rw [getDerivedTransactions_paidOrderEx_limit_zero] <;> simp

/-- Witness for C6 amended: with a single paid order in the collection, the
derived transaction sits in the output and is confirmed, and a nonzero
limit of 1 bounds the output length. -/
theorem getDerivedTransactions_properties_witness :
    orderDerivedTransaction paidOrderEx paidPaymentEx ∈
      getDerivedTransactions [paidOrderEx] [] {} ∧
    (orderDerivedTransaction paidOrderEx paidPaymentEx).status =
      LedgerEntryStatus.confirmed ∧
    ({ limit := some 1 } : TransactionOptions).limit = some 1 ∧
    (1 : Nat) ≠ 0 ∧
    (getDerivedTransactions [paidOrderEx] [] { limit := some 1 }).length ≤ 1 :=
  ⟨by rw [getDerivedTransactions_paidOrderEx]; exact List.mem_singleton_self _,
    ((getDerivedTransactions_properties [paidOrderEx] [] {}).1 _
      (by rw [getDerivedTransactions_paidOrderEx]; exact List.mem_singleton_self _)).1,
    rfl, by decide,
    (getDerivedTransactions_properties [paidOrderEx] []
      { limit := some 1 }).2.2 1 rfl (by decide)⟩

/-- C7: the analytics gross revenue sums the gross amounts of exactly the
revenue-status orders and bookings with a payment dated in each period; net
revenue is gross minus the default-rate transaction fee cost; and when the
preceding net revenue is positive, revenue growth is its percentage change. -/
theorem analytics_revenue_metrics (orders : List Order)
    (bookings : List Booking) (now days : Int) :
    (analyticsMetrics orders bookings now days).grossRevenue =
      ((orders.filter fun o =>
          decide (o.status ∈ ORDER_REVENUE_STATUSES) && o.payment.isSome &&
          decide (orderRevenueDate o ≥ now - days * dayMs)).map
        grossOrderAmount).sum +
      ((bookings.filter fun b =>
          decide (b.status ∈ BOOKING_REVENUE_STATUSES) && b.payment.isSome &&
          decide (bookingRevenueDate b ≥ now - days * dayMs)).map
        grossBookingAmount).sum ∧
    (analyticsMetrics orders bookings now days).totalRevenue =
      (analyticsMetrics orders bookings now days).grossRevenue -
        calculateTransactionFeeCost
          (analyticsMetrics orders bookings now days).grossRevenue
          DEFAULT_TRANSACTION_FEE_RATE ∧
    (analyticsMetrics orders bookings now days).previousRevenue =
      (((orders.filter fun o =>
          decide (o.status ∈ ORDER_REVENUE_STATUSES) && o.payment.isSome &&
          decide (orderRevenueDate o ≥ now - 2 * days * dayMs) &&
          decide (orderRevenueDate o < now - days * dayMs)).map
        grossOrderAmount).sum +
      ((bookings.filter fun b =>
          decide (b.status ∈ BOOKING_REVENUE_STATUSES) && b.payment.isSome &&
          decide (bookingRevenueDate b ≥ now - 2 * days * dayMs) &&
          decide (bookingRevenueDate b < now - days * dayMs)).map
        grossBookingAmount).sum) -
      calculateTransactionFeeCost
        (((orders.filter fun o =>
            decide (o.status ∈ ORDER_REVENUE_STATUSES) && o.payment.isSome &&
            decide (orderRevenueDate o ≥ now - 2 * days * dayMs) &&
            decide (orderRevenueDate o < now - days * dayMs)).map
          grossOrderAmount).sum +
        ((bookings.filter fun b =>
            decide (b.status ∈ BOOKING_REVENUE_STATUSES) && b.payment.isSome &&
            decide (bookingRevenueDate b ≥ now - 2 * days * dayMs) &&
            decide (bookingRevenueDate b < now - days * dayMs)).map
          grossBookingAmount).sum)
        DEFAULT_TRANSACTION_FEE_RATE ∧
    ((analyticsMetrics orders bookings now days).previousRevenue > 0 →
      (analyticsMetrics orders bookings now days).revenueGrowth =
        ((analyticsMetrics orders bookings now days).totalRevenue -
          (analyticsMetrics orders bookings now days).previousRevenue) /
          (analyticsMetrics orders bookings now days).previousRevenue * 100) := by
  refine ⟨?_, rfl, ?_, fun h => ?_⟩
  · show
      ((orders.filter fun o =>
          decide (o.status ∈ ORDER_REVENUE_STATUSES) && o.payment.isSome &&
          decide (orderRevenueDate o ≥ now - days * dayMs)).foldl
        (fun sum o => sum + grossOrderAmount o) 0) +
      ((bookings.filter fun b =>
          decide (b.status ∈ BOOKING_REVENUE_STATUSES) && b.payment.isSome &&
          decide (bookingRevenueDate b ≥ now - days * dayMs)).foldl
        (fun sum b => sum + grossBookingAmount b) 0) = _
    rw [List.sum_eq_foldl, List.foldl_map, List.sum_eq_foldl, List.foldl_map]
  · show
      (((orders.filter fun o =>
          decide (o.status ∈ ORDER_REVENUE_STATUSES) && o.payment.isSome &&
          decide (orderRevenueDate o ≥ now - 2 * days * dayMs) &&
          decide (orderRevenueDate o < now - days * dayMs)).foldl
        (fun sum o => sum + grossOrderAmount o) 0) +
      ((bookings.filter fun b =>
          decide (b.status ∈ BOOKING_REVENUE_STATUSES) && b.payment.isSome &&
          decide (bookingRevenueDate b ≥ now - 2 * days * dayMs) &&
          decide (bookingRevenueDate b < now - days * dayMs)).foldl
        (fun sum b => sum + grossBookingAmount b) 0)) -
      calculateTransactionFeeCost _ DEFAULT_TRANSACTION_FEE_RATE = _
    rw [List.sum_eq_foldl, List.foldl_map, List.sum_eq_foldl, List.foldl_map]
  · have hgrowth :
        (analyticsMetrics orders bookings now days).revenueGrowth =
          if (analyticsMetrics orders bookings now days).previousRevenue > 0 then
            ((analyticsMetrics orders bookings now days).totalRevenue -
              (analyticsMetrics orders bookings now days).previousRevenue) /
              (analyticsMetrics orders bookings now days).previousRevenue * 100
          else if (analyticsMetrics orders bookings now days).totalRevenue > 0 then 100
          else 0 := rfl
    rw [hgrowth, if_pos h]

/-- Witness for C7: with one order paid in the preceding period and nothing
in the current one, the preceding net revenue is positive and the growth
formula applies. -/
theorem analytics_revenue_metrics_witness :
    (analyticsMetrics [paidOrderEx] [] 172800000 1).previousRevenue > 0 ∧
    (analyticsMetrics [paidOrderEx] [] 172800000 1).revenueGrowth =
      ((analyticsMetrics [paidOrderEx] [] 172800000 1).totalRevenue -
        (analyticsMetrics [paidOrderEx] [] 172800000 1).previousRevenue) /
        (analyticsMetrics [paidOrderEx] [] 172800000 1).previousRevenue * 100 :=
  ⟨by
    simp [analyticsMetrics, paidOrderEx, paidPaymentEx, ORDER_REVENUE_STATUSES,
      BOOKING_REVENUE_STATUSES, orderRevenueDate, bookingRevenueDate,
      grossOrderAmount, grossBookingAmount, calculateTransactionFeeCost,
      DEFAULT_TRANSACTION_FEE_RATE, dayMs, List.filter_cons]
    decide,
    (analytics_revenue_metrics [paidOrderEx] [] 172800000 1).2.2.2 (by
      simp [analyticsMetrics, paidOrderEx, paidPaymentEx, ORDER_REVENUE_STATUSES,
        BOOKING_REVENUE_STATUSES, orderRevenueDate, bookingRevenueDate,
        grossOrderAmount, grossBookingAmount, calculateTransactionFeeCost,
        DEFAULT_TRANSACTION_FEE_RATE, dayMs, List.filter_cons]
      decide)⟩

end EshopCure
